import Mathlib

/-!
Verification of the Steam gaming dashboard (`dashboard.py`).

The program loads three columnar tables (games, reviews, logs) and renders
summary metrics and a playtime distribution chart.  We embed the data model
(tables as association lists of named columns), the loader with its
memoization cache, and each display computation of `main`, and prove the
specified properties about them.
-/

set_option autoImplicit false

namespace Dashboard

/-- A cell value of a column: a number, a string, or a missing value (NaN). -/
inductive Value where
  | num (q : ℚ)
  | str (s : String)
  | nan
  deriving DecidableEq, Repr

/-- An in-memory table: a row count and named columns
(mirrors a `pandas.DataFrame`: `len(df)` is `nRows`, `df[c]` looks up a
column by name, `df[c] = vs` replaces or appends a column). -/
structure Table where
  nRows : ℕ
  cols : List (String × List Value)
  deriving DecidableEq, Repr

/-- `c in df.columns` -/
def Table.hasCol (t : Table) (c : String) : Bool :=
  t.cols.any (fun p => p.1 == c)

/-- `df[c]` (first column with that name; `[]` if absent). -/
def Table.getCol (t : Table) (c : String) : List Value :=
  match t.cols.find? (fun p => p.1 == c) with
  | some p => p.2
  | none => []

/-- `df[c] = vs`: replace the column if present, else append it. -/
def Table.setCol (t : Table) (c : String) (vs : List Value) : Table :=
  if t.hasCol c then
    { t with cols := t.cols.map (fun p => if p.1 == c then (c, vs) else p) }
  else
    { t with cols := t.cols ++ [(c, vs)] }

/-- Numeric reading of a cell (NaN of a summed column is skipped by pandas,
so it contributes 0 to sums; the claims only exercise numeric columns). -/
def Value.toQ : Value → ℚ
  | .num q => q
  | .str _ => 0
  | .nan => 0

/-- `df[c]` viewed as rational numbers. -/
def Table.numCol (t : Table) (c : String) : List ℚ :=
  (t.getCol c).map Value.toQ

/-- `df[c].sum()` -/
def Table.sumCol (t : Table) (c : String) : ℚ :=
  (t.numCol c).sum

/-- An IEEE-style numeric result: a finite rational, ±infinity, or NaN.
Only the zero-divisor behaviour of floats matters here, and that is exact
(no rounding is involved), so this is a faithful model of the numpy
division appearing in the sentiment computation. -/
inductive PyNum where
  | fin (q : ℚ)
  | inf
  | ninf
  | nan
  deriving DecidableEq, Repr

/-- numpy division of two finite values: finite quotient when the divisor
is nonzero, otherwise ±inf or NaN according to the dividend's sign. -/
def pyDiv : PyNum → PyNum → PyNum
  | .fin a, .fin b =>
      if b ≠ 0 then .fin (a / b)
      else if 0 < a then .inf
      else if a < 0 then .ninf
      else .nan
  | .inf, .fin b => if 0 ≤ b then .inf else .ninf
  | .ninf, .fin b => if 0 ≤ b then .ninf else .inf
  | _, _ => .nan

/-- Multiplication by the positive constant 100. -/
def pyMul100 : PyNum → PyNum
  | .fin a => .fin (a * 100)
  | .inf => .inf
  | .ninf => .ninf
  | .nan => .nan

/-- `series.mean()`: NaN on an empty column, else the arithmetic mean. -/
def pyMean (vals : List ℚ) : PyNum :=
  if vals.length = 0 then .nan else .fin (vals.sum / vals.length)

/-- Group a reversed digit string into blocks of three with commas
(helper for the thousands separator of `f-string` `:,` formatting). -/
def commaRev : List Char → List Char
  | a :: b :: c :: d :: rest => a :: b :: c :: ',' :: commaRev (d :: rest)
  | l => l

/-- `f-string` formatting with a thousands separator: `1234` to `1,234`. -/
def fmtComma (n : ℕ) : String :=
  String.mk (commaRev (toString n).toList.reverse).reverse

/-- `f-string` `.1f` formatting of a finite value: one digit after the
decimal point, rounding to the nearest tenth. -/
def fmt1 (q : ℚ) : String :=
  (if round (q * 10) < 0 then "-" else "") ++
    toString ((round (q * 10)).natAbs / 10) ++ "." ++
    toString ((round (q * 10)).natAbs % 10)

/-- `f-string` `.1f` formatting, extended to non-finite values exactly as
Python prints them. -/
def fmt1Py : PyNum → String
  | .fin q => fmt1 q
  | .inf => "inf"
  | .ninf => "-inf"
  | .nan => "nan"

/-- The bin assigned to a playtime value by
`pd.cut(x, bins=[0, 10, 50, 100, inf], labels=['0-10h','10-50h','50-100h','100h+'])`.
pandas default is `right=True`, so bin `i` holds `bins[i] < x <= bins[i+1]`;
a value outside every bin (here `x <= 0`) becomes NaN (`none`). -/
def cutBin (x : ℚ) : Option String :=
  if 0 < x ∧ x ≤ 10 then some "0-10h"
  else if 10 < x ∧ x ≤ 50 then some "10-50h"
  else if 50 < x ∧ x ≤ 100 then some "50-100h"
  else if 100 < x then some "100h+"
  else none

/-- The count `value_counts()` reports for one bin label: the number of
playtime values assigned that bin (NaN entries are dropped). -/
def histCount (vals : List ℚ) (label : String) : ℕ :=
  ((vals.filterMap cutBin).filter (fun s => s == label)).length

/-- The four bin labels passed to `pd.cut`. -/
def binLabels : List String := ["0-10h", "10-50h", "50-100h", "100h+"]

/-- The values `Series.mean()` averages: the column's cells with NaN
dropped (pandas `skipna=True` skips NaN in both the sum and the count),
read as rationals. -/
def Table.meanVals (t : Table) (c : String) : List ℚ :=
  ((t.getCol c).filter (fun v => v != Value.nan)).map Value.toQ

/-- The "Avg Playtime" metric of the overview panel (lines 87-92):
`Series.mean()` of `playtime_hours` (NaN skipped in sum and count, NaN
result on an all-NaN or empty column) formatted `:.1f` with an `h`
suffix when the column exists, else the `"N/A"` placeholder. -/
def avgPlaytimeDisplay : Option Table → String
  | none => "N/A"
  | some t =>
      if t.hasCol "playtime_hours" then
        fmt1Py (pyMean (t.meanVals "playtime_hours")) ++ "h"
      else "N/A"

/-- The "Active Players" metric (lines 121-125): `nunique()` of
`player_id` (NaN dropped) formatted `:,`, else the `"N/A"` placeholder. -/
def activePlayersDisplay : Option Table → String
  | none => "N/A"
  | some t =>
      if t.hasCol "player_id" then
        fmtComma (((t.getCol "player_id").filter (fun v => v != Value.nan)).dedup).length
      else "N/A"

/-- The value behind the "Sentiment Score" metric:
`reviews_df['helpful_votes'].sum() / reviews_df['total_votes'].sum() * 100`. -/
def sentimentValue (t : Table) : PyNum :=
  pyMul100 (pyDiv (.fin (t.sumCol "helpful_votes")) (.fin (t.sumCol "total_votes")))

/-- The "Sentiment Score" metric (lines 128-136): the vote ratio formatted
`:.1f%` when both vote columns exist, the hardcoded `"62.4%"` when the
table is present but a column is missing, `"N/A"` when the table is absent. -/
def sentimentDisplay : Option Table → String
  | none => "N/A"
  | some t =>
      if t.hasCol "helpful_votes" && t.hasCol "total_votes" then
        fmt1Py (sentimentValue t) ++ "%"
      else "62.4%"

/-- The playtime distribution section (lines 100-117): when the reviews
table is present and has `playtime_hours`, the chart data (count per bin
label); otherwise `none`, standing for the `st.info` placeholder. -/
def playtimeDistDisplay : Option Table → Option (List (String × ℕ))
  | none => none
  | some t =>
      if t.hasCol "playtime_hours" then
        some (binLabels.map (fun lb => (lb, histCount (t.numCol "playtime_hours") lb)))
      else none

/-- The three count metrics of the overview panel (lines 60-85, 138-140):
rendered only when the games table is present (`if games_df is not None:`),
each count formatted `:,` with `0` for an absent table; when the games
table is absent the metrics are not rendered at all (`none`) and the error
branch runs instead. -/
def overviewCounts (g r l : Option Table) : Option (String × String × String) :=
  match g with
  | none => none
  | some _ =>
      let count : Option Table → ℕ := fun o => match o with
        | some t => t.nRows
        | none => 0
      some (fmtComma (count g), fmtComma (count r), fmtComma (count l))

/-- The NaN-aware cell written into the derived `playtime_bin` column. -/
def binValue : Option String → Value
  | some s => .str s
  | none => .nan

/-- The effect of one render pass of `main` on the three tables themselves:
line 102 assigns `reviews_df['playtime_bin']` (inside the games-present
branch, guarded by the `playtime_hours` existence check); no other table or
column is touched. -/
def renderTables (g r l : Option Table) : Option Table × Option Table × Option Table :=
  match g with
  | none => (g, r, l)
  | some _ =>
      let r' : Option Table := match r with
        | none => none
        | some rt =>
            if rt.hasCol "playtime_hours" then
              some (rt.setCol "playtime_bin"
                ((rt.numCol "playtime_hours").map (fun x => binValue (cutBin x))))
            else some rt
      (g, r', l)

/-- The outcome of reading one parquet file: a table, or the message of the
exception the read raised. -/
abbrev ReadResult := Except String Table

/-- The storage state `load_data` reads from: the outcome each of the three
fixed-path reads would have. -/
structure Storage where
  games : ReadResult
  reviews : ReadResult
  logs : ReadResult

/-- The three loaded tables together with the list of user-visible error
messages emitted while loading. -/
abbrev LoadResult := (Option Table × Option Table × Option Table) × List String

/-- `load_data` (lines 39-48): read the three files in order inside one
`try`; on the first failure the `except` branch emits a single `st.error`
and returns `None, None, None`. -/
def load_data (s : Storage) : LoadResult :=
  match s.games with
  | .error e => ((none, none, none), ["Error loading data: " ++ e])
  | .ok g =>
    match s.reviews with
    | .error e => ((none, none, none), ["Error loading data: " ++ e])
    | .ok r =>
      match s.logs with
      | .error e => ((none, none, none), ["Error loading data: " ++ e])
      | .ok l => ((some g, some r, some l), [])

/-- One invocation of the `@st.cache_data`-decorated `load_data`: given the
cache contents and the number of storage reads so far, return the result,
the new cache contents, and the new read count.  A populated cache is
returned as-is without touching storage. -/
def cachedLoad (s : Storage) : Option LoadResult → ℕ → LoadResult × Option LoadResult × ℕ
  | some r, k => (r, some r, k)
  | none, k => (load_data s, some (load_data s), k + 1)

/-- The state after the `(n+1)`-th invocation of the cached loader,
starting from an empty cache and zero reads, with no intervening
`st.cache_data.clear()`. -/
def callSeq (s : Storage) : ℕ → LoadResult × Option LoadResult × ℕ
  | 0 => cachedLoad s none 0
  | n + 1 => cachedLoad s (callSeq s n).2.1 (callSeq s n).2.2

/-- The column view of an optional reviews table: `some` column contents
when the table is present and has the column, else `none`. -/
def colView (r : Option Table) (c : String) : Option (List Value) :=
  match r with
  | none => none
  | some t => if t.hasCol c then some (t.getCol c) else none

/-- Whether a numeric result is finite. -/
def PyNum.isFinite : PyNum → Bool
  | .fin _ => true
  | _ => false

/-! ### Example tables used as concrete witnesses -/

/-- A games table with three rows and no columns of interest. -/
def gamesEx : Table := ⟨3, [("title", [.str "a", .str "b", .str "c"])]⟩

/-- A reviews table whose playtime column holds `[5, 15, 60, 150]`. -/
def reviewsEx : Table :=
  ⟨4, [("playtime_hours", [.num 5, .num 15, .num 60, .num 150])]⟩

/-- A reviews table whose vote columns sum to 80 and 100. -/
def reviewsVotesEx : Table :=
  ⟨2, [("helpful_votes", [.num 30, .num 50]), ("total_votes", [.num 60, .num 40])]⟩

/-- A reviews table with both vote columns whose total votes sum to 0. -/
def reviewsZeroVotesEx : Table :=
  ⟨1, [("helpful_votes", [.num 80]), ("total_votes", [.num 0])]⟩

/-- A logs table whose `player_id` column holds `[1, 1, 2, 3]`. -/
def logsEx : Table := ⟨4, [("player_id", [.num 1, .num 1, .num 2, .num 3])]⟩

/-- A storage state on which all three reads succeed. -/
def storageEx : Storage := ⟨.ok gamesEx, .ok reviewsEx, .ok logsEx⟩

/-! ### Claim theorems -/

/-- Evaluation helper for `fmt1`: once the rounded tenths are known, the
formatted string is a plain digit computation. -/
lemma fmt1_eval (q : ℚ) (n : ℤ) (h : round (q * 10) = n) :
    fmt1 q = (if n < 0 then "-" else "") ++
      toString (n.natAbs / 10) ++ "." ++ toString (n.natAbs % 10) := by
  unfold fmt1
  rw [h]

/-- Claim C3: `load_data` never raises; it either returns the three loaded
tables with no error message, or, on any read failure, three absent values
and exactly one user-visible error message.  (The embedded function is
total, which captures "never raises to the caller".) -/
theorem claim_C3 (s : Storage) :
    (∃ g r l, load_data s = ((some g, some r, some l), [])) ∨
    (∃ m, load_data s = ((none, none, none), [m])) := by
  rcases s with ⟨g, r, l⟩
  cases g with
  | error e => right; exact ⟨_, rfl⟩
  | ok gt =>
    cases r with
    | error e => right; exact ⟨_, rfl⟩
    | ok rt =>
      cases l with
      | error e => right; exact ⟨_, rfl⟩
      | ok lt => left; exact ⟨gt, rt, lt, rfl⟩

/-- Every call sequence of the cached loader stabilises after the first
call: the cache holds the first result and exactly one storage read
happened. -/
lemma callSeq_eq (s : Storage) (n : ℕ) :
    callSeq s n = (load_data s, some (load_data s), 1) := by
  induction n with
  | zero => rfl
  | succ n ih => simp [callSeq, ih, cachedLoad]

/-- Claim C8: repeated invocations of the cached loader with no intervening
cache clear return the same result as the first invocation, and storage is
not re-read (the read count after every later call equals the count after
the first call). -/
theorem claim_C8 (s : Storage) (n : ℕ) :
    (callSeq s n).1 = (callSeq s 0).1 ∧ (callSeq s n).2.2 = (callSeq s 0).2.2 := by
  rw [callSeq_eq, callSeq_eq]
  exact ⟨rfl, rfl⟩

/-- Witness for C8 at a concrete storage state and the sixth call. -/
theorem claim_C8_witness :
    (callSeq storageEx 5).1 = (callSeq storageEx 0).1 ∧
    (callSeq storageEx 5).2.2 = (callSeq storageEx 0).2.2 :=
  claim_C8 storageEx 5

/-- Claim C6: a reviews table whose playtime column holds exactly
`[5, 15, 60, 150]` yields histogram bin counts `1, 1, 1, 1`. -/
theorem claim_C6 (t : Table) (h : t.hasCol "playtime_hours" = true)
    (hv : t.numCol "playtime_hours" = [5, 15, 60, 150]) :
    playtimeDistDisplay (some t) =
      some [("0-10h", 1), ("10-50h", 1), ("50-100h", 1), ("100h+", 1)] ∧
    histCount (t.numCol "playtime_hours") "0-10h" = 1 ∧
    histCount (t.numCol "playtime_hours") "10-50h" = 1 ∧
    histCount (t.numCol "playtime_hours") "50-100h" = 1 ∧
    histCount (t.numCol "playtime_hours") "100h+" = 1 := by
  simp only [playtimeDistDisplay, h, if_true, hv]
  refine ⟨?_, by decide, by decide, by decide, by decide⟩
  decide

/-- Witness for C6 at the concrete reviews table. -/
theorem claim_C6_witness :
    playtimeDistDisplay (some reviewsEx) =
      some [("0-10h", 1), ("10-50h", 1), ("50-100h", 1), ("100h+", 1)] :=
  (claim_C6 reviewsEx (by decide) (by decide)).1

/-- Claim C2: the sentiment score displays
`sum(helpful_votes)/sum(total_votes)*100` formatted to one decimal with a
percent suffix when both vote columns exist (stated both in exact float
semantics and, for a nonzero divisor, as the rational formula; sums of 80
and 100 give `"80.0%"`), the fixed fallback `"62.4%"` when the table lacks
either column, and `"N/A"` when the table is absent. -/
theorem claim_C2 (t : Table) :
    ((t.hasCol "helpful_votes" && t.hasCol "total_votes") = true →
        sentimentDisplay (some t) = fmt1Py (sentimentValue t) ++ "%" ∧
        (t.sumCol "total_votes" ≠ 0 →
          sentimentDisplay (some t) =
            fmt1 (t.sumCol "helpful_votes" / t.sumCol "total_votes" * 100) ++ "%") ∧
        (t.sumCol "helpful_votes" = 80 → t.sumCol "total_votes" = 100 →
          sentimentDisplay (some t) = "80.0%")) ∧
    ((t.hasCol "helpful_votes" && t.hasCol "total_votes") = false →
        sentimentDisplay (some t) = "62.4%") ∧
    sentimentDisplay none = "N/A" := by
  refine ⟨fun h => ⟨?_, fun hz => ?_, fun h80 h100 => ?_⟩, fun h => ?_, rfl⟩
  · simp [sentimentDisplay, h]
  · simp [sentimentDisplay, h, sentimentValue, pyDiv, pyMul100, hz, fmt1Py]
  · have hz : t.sumCol "total_votes" ≠ 0 := by rw [h100]; norm_num
    simp only [sentimentDisplay, h, if_true, sentimentValue, pyDiv, pyMul100, fmt1Py,
      h80, h100, hz, ne_eq, not_false_eq_true, if_pos]
    norm_num
    rw [fmt1_eval 80 800 (by norm_num [round_eq])]
    decide
  · simp [sentimentDisplay, h]

/-- Witness for C2 at a concrete reviews table whose vote columns sum to 80
and 100. -/
theorem claim_C2_witness : sentimentDisplay (some reviewsVotesEx) = "80.0%" :=
  ((claim_C2 reviewsVotesEx).1 (by decide)).2.2
    (by norm_num [Table.sumCol,
      show reviewsVotesEx.numCol "helpful_votes" = [30, 50] from rfl])
    (by norm_num [Table.sumCol,
      show reviewsVotesEx.numCol "total_votes" = [60, 40] from rfl])

/-- Claim C10: with both vote columns present and total votes summing to
zero, the sentiment computation does not raise: the division yields a
non-finite value (infinity or NaN) which is formatted and displayed; the
fallback `"62.4%"` and the `"N/A"` placeholder are not shown. -/
theorem claim_C10 (t : Table)
    (h : (t.hasCol "helpful_votes" && t.hasCol "total_votes") = true)
    (hz : t.sumCol "total_votes" = 0) :
    (sentimentValue t).isFinite = false ∧
    sentimentDisplay (some t) = fmt1Py (sentimentValue t) ++ "%" ∧
    sentimentDisplay (some t) ≠ "62.4%" ∧
    sentimentDisplay (some t) ≠ "N/A" := by
  have hval : sentimentValue t = .inf ∨ sentimentValue t = .ninf ∨
      sentimentValue t = .nan := by
    unfold sentimentValue pyDiv
    rcases lt_trichotomy (0 : ℚ) (t.sumCol "helpful_votes") with hp | hp | hp
    · left; simp [hz, hp, pyMul100]
    · right; right; simp [hz, ← hp, pyMul100]
    · right; left; simp [hz, hp, not_lt_of_gt hp, pyMul100]
  have hdisp : sentimentDisplay (some t) = fmt1Py (sentimentValue t) ++ "%" := by
    simp [sentimentDisplay, h]
  refine ⟨?_, hdisp, ?_, ?_⟩
  · rcases hval with hv | hv | hv <;> rw [hv] <;> rfl
  · rw [hdisp]; rcases hval with hv | hv | hv <;> rw [hv] <;> decide
  · rw [hdisp]; rcases hval with hv | hv | hv <;> rw [hv] <;> decide

/-- Witness for C10 at a concrete table with 80 helpful votes and 0 total
votes. -/
theorem claim_C10_witness :
    (sentimentValue reviewsZeroVotesEx).isFinite = false ∧
    sentimentDisplay (some reviewsZeroVotesEx) =
      fmt1Py (sentimentValue reviewsZeroVotesEx) ++ "%" ∧
    sentimentDisplay (some reviewsZeroVotesEx) ≠ "62.4%" ∧
    sentimentDisplay (some reviewsZeroVotesEx) ≠ "N/A" :=
  claim_C10 reviewsZeroVotesEx (by decide)
    (by norm_num [Table.sumCol,
      show reviewsZeroVotesEx.numCol "total_votes" = [0] from rfl])

/-- Claim C5: the average-playtime metric displays the arithmetic mean of
the playtime column (in pandas semantics: the mean of its non-NaN values)
formatted to one decimal with an `h` suffix whenever the column exists
(and holds at least one non-NaN value, so the mean is defined), and
`"N/A"` when the column or the table is absent. -/
theorem claim_C5 (t : Table) :
    (t.hasCol "playtime_hours" = true →
        t.meanVals "playtime_hours" ≠ [] →
        avgPlaytimeDisplay (some t) =
          fmt1 ((t.meanVals "playtime_hours").sum /
            ((t.meanVals "playtime_hours").length : ℚ)) ++ "h") ∧
    (t.hasCol "playtime_hours" = false → avgPlaytimeDisplay (some t) = "N/A") ∧
    avgPlaytimeDisplay none = "N/A" := by
  refine ⟨fun h hne => ?_, fun h => ?_, rfl⟩
  · have hlen : (t.meanVals "playtime_hours").length ≠ 0 := by
      simpa using List.length_pos.mpr hne |>.ne'
    simp [avgPlaytimeDisplay, h, pyMean, hlen, fmt1Py]
  · simp [avgPlaytimeDisplay, h]

/-- A reviews table whose playtime column holds `[10, NaN]`: pandas shows
a mean of `10.0`, not `5.0`, because NaN is skipped in sum and count. -/
def reviewsNanEx : Table := ⟨2, [("playtime_hours", [.num 10, .nan])]⟩

/-- Witness for C5 at two concrete reviews tables: the mean of
`[5, 15, 60, 150]` is `57.5`, and the mean of `[10, NaN]` is `10` (the
NaN cell is skipped in both the sum and the count). -/
theorem claim_C5_witness :
    avgPlaytimeDisplay (some reviewsEx) = "57.5h" ∧
    avgPlaytimeDisplay (some reviewsNanEx) = "10.0h" := by
  constructor
  · have h := (claim_C5 reviewsEx).1 (by decide) (by decide)
    rw [h, show reviewsEx.meanVals "playtime_hours" = [5, 15, 60, 150] from rfl,
      show (([5, 15, 60, 150] : List ℚ).sum / (([5, 15, 60, 150] : List ℚ).length : ℚ))
        = 115 / 2 from by norm_num,
      fmt1_eval (115 / 2) 575 (by norm_num [round_eq])]
    decide
  · have h := (claim_C5 reviewsNanEx).1 (by decide) (by decide)
    rw [h, show reviewsNanEx.meanVals "playtime_hours" = [10] from rfl,
      show (([10] : List ℚ).sum / (([10] : List ℚ).length : ℚ)) = 10 from by norm_num,
      fmt1_eval 10 100 (by norm_num [round_eq])]
    decide

/-- Claim C7: the active-players metric displays the number of distinct
values of the `player_id` column (stated as the cardinality of the set of
its non-NaN values; `[1, 1, 2, 3]` displays `"3"`), and `"N/A"` when the
column or the logs table is absent. -/
theorem claim_C7 (t : Table) :
    (t.hasCol "player_id" = true →
        activePlayersDisplay (some t) =
          fmtComma ((t.getCol "player_id").filter
            (fun v => v != Value.nan)).toFinset.card) ∧
    (t.hasCol "player_id" = false → activePlayersDisplay (some t) = "N/A") ∧
    activePlayersDisplay none = "N/A" ∧
    activePlayersDisplay (some logsEx) = "3" := by
  refine ⟨fun h => ?_, fun h => ?_, rfl, by decide⟩
  · have hx : activePlayersDisplay (some t) =
        fmtComma (((t.getCol "player_id").filter (fun v => v != Value.nan)).dedup).length := by
      simp [activePlayersDisplay, h]
    rw [hx, List.card_toFinset]
  · simp [activePlayersDisplay, h]

/-- `value_counts` counting through `pd.cut`, as `countP` of bin
membership. -/
lemma histCount_eq_countP (vals : List ℚ) (lb : String) :
    histCount vals lb = vals.countP (fun v => cutBin v == some lb) := by
  induction vals with
  | nil => rfl
  | cons x xs ih =>
    unfold histCount at ih ⊢
    cases h : cutBin x with
    | none => simp [List.filterMap_cons, h, List.countP_cons, ih]
    | some s =>
      by_cases hs : s = lb
      · simp [List.filterMap_cons, h, List.filter_cons, List.countP_cons, hs, ih]
      · simp [List.filterMap_cons, h, List.filter_cons, List.countP_cons, hs, ih]

/-- Membership in the first `pd.cut` bin. -/
lemma cutBin1_iff (x : ℚ) : cutBin x = some "0-10h" ↔ (0 < x ∧ x ≤ 10) := by
  unfold cutBin
  constructor
  · intro h
    split_ifs at h with h1 h2 h3 h4
    · exact h1
    · exact absurd h (by simp)
    · exact absurd h (by simp)
    · exact absurd h (by simp)
  · intro h
    rw [if_pos h]

/-- Membership in the second `pd.cut` bin. -/
lemma cutBin2_iff (x : ℚ) : cutBin x = some "10-50h" ↔ (10 < x ∧ x ≤ 50) := by
  unfold cutBin
  constructor
  · intro h
    split_ifs at h with h1 h2 h3 h4
    · exact absurd h (by simp)
    · exact h2
    · exact absurd h (by simp)
    · exact absurd h (by simp)
  · intro h
    have h1 : ¬(0 < x ∧ x ≤ 10) := by
      obtain ⟨ha, hb⟩ := h
      intro hc
      obtain ⟨hca, hcb⟩ := hc
      linarith
    rw [if_neg h1, if_pos h]

/-- Membership in the third `pd.cut` bin. -/
lemma cutBin3_iff (x : ℚ) : cutBin x = some "50-100h" ↔ (50 < x ∧ x ≤ 100) := by
  unfold cutBin
  constructor
  · intro h
    split_ifs at h with h1 h2 h3 h4
    · exact absurd h (by simp)
    · exact absurd h (by simp)
    · exact h3
    · exact absurd h (by simp)
  · intro h
    obtain ⟨ha, hb⟩ := h
    have h1 : ¬(0 < x ∧ x ≤ 10) := by
      intro hc
      obtain ⟨hca, hcb⟩ := hc
      linarith
    have h2 : ¬(10 < x ∧ x ≤ 50) := by
      intro hc
      obtain ⟨hca, hcb⟩ := hc
      linarith
    rw [if_neg h1, if_neg h2, if_pos ⟨ha, hb⟩]

/-- Membership in the last `pd.cut` bin. -/
lemma cutBin4_iff (x : ℚ) : cutBin x = some "100h+" ↔ 100 < x := by
  unfold cutBin
  constructor
  · intro h
    split_ifs at h with h1 h2 h3 h4
    · exact absurd h (by simp)
    · exact absurd h (by simp)
    · exact absurd h (by simp)
    · exact h4
  · intro h
    have h1 : ¬(0 < x ∧ x ≤ 10) := by
      intro hc
      obtain ⟨hca, hcb⟩ := hc
      linarith
    have h2 : ¬(10 < x ∧ x ≤ 50) := by
      intro hc
      obtain ⟨hca, hcb⟩ := hc
      linarith
    have h3 : ¬(50 < x ∧ x ≤ 100) := by
      intro hc
      obtain ⟨hca, hcb⟩ := hc
      linarith
    rw [if_neg h1, if_neg h2, if_neg h3, if_pos h]

/-- The first bin of `pd.cut` holds exactly the values in `(0, 10]`. -/
lemma histCount_bin1 (vals : List ℚ) :
    histCount vals "0-10h" = vals.countP (fun v => decide (0 < v ∧ v ≤ 10)) := by
  rw [histCount_eq_countP]
  refine List.countP_congr (fun x _ => ?_)
  simp only [beq_iff_eq, decide_eq_true_eq]
  exact cutBin1_iff x

/-- The second bin of `pd.cut` holds exactly the values in `(10, 50]`. -/
lemma histCount_bin2 (vals : List ℚ) :
    histCount vals "10-50h" = vals.countP (fun v => decide (10 < v ∧ v ≤ 50)) := by
  rw [histCount_eq_countP]
  refine List.countP_congr (fun x _ => ?_)
  simp only [beq_iff_eq, decide_eq_true_eq]
  exact cutBin2_iff x

/-- The third bin of `pd.cut` holds exactly the values in `(50, 100]`. -/
lemma histCount_bin3 (vals : List ℚ) :
    histCount vals "50-100h" = vals.countP (fun v => decide (50 < v ∧ v ≤ 100)) := by
  rw [histCount_eq_countP]
  refine List.countP_congr (fun x _ => ?_)
  simp only [beq_iff_eq, decide_eq_true_eq]
  exact cutBin3_iff x

/-- The last bin of `pd.cut` holds exactly the values in `(100, ∞)`. -/
lemma histCount_bin4 (vals : List ℚ) :
    histCount vals "100h+" = vals.countP (fun v => decide (100 < v)) := by
  rw [histCount_eq_countP]
  refine List.countP_congr (fun x _ => ?_)
  simp only [beq_iff_eq, decide_eq_true_eq]
  exact cutBin4_iff x

/-- Counterexample to claim C1 as stated: the bins are not right-open.
A playtime of exactly `10` is counted in `"0-10h"`, not in `"10-50h"`, and
a playtime of exactly `0` falls in no bin at all. -/
theorem claim_C1_counterexample :
    histCount [(10 : ℚ)] "0-10h" = 1 ∧ histCount [(10 : ℚ)] "10-50h" = 0 ∧
    histCount [(0 : ℚ)] "0-10h" = 0 := by
  decide

/-- Claim C1 (amended): when the reviews table has a playtime column the
histogram partitions its values into the four left-open, right-closed bins
`(0,10]`, `(10,50]`, `(50,100]`, `(100,∞)` (so exactly 10 counts as
`"0-10h"` and exactly 0 counts in no bin), and each displayed count is the
number of values in that bin; when the column or table is absent an
informational placeholder is displayed instead of the chart. -/
theorem claim_C1_amended (t : Table) :
    (t.hasCol "playtime_hours" = true →
        playtimeDistDisplay (some t) =
          some [("0-10h",
                  (t.numCol "playtime_hours").countP (fun v => decide (0 < v ∧ v ≤ 10))),
                ("10-50h",
                  (t.numCol "playtime_hours").countP (fun v => decide (10 < v ∧ v ≤ 50))),
                ("50-100h",
                  (t.numCol "playtime_hours").countP (fun v => decide (50 < v ∧ v ≤ 100))),
                ("100h+",
                  (t.numCol "playtime_hours").countP (fun v => decide (100 < v)))]) ∧
    (t.hasCol "playtime_hours" = false → playtimeDistDisplay (some t) = none) ∧
    playtimeDistDisplay none = none := by
  refine ⟨fun h => ?_, fun h => by simp [playtimeDistDisplay, h], rfl⟩
  simp [playtimeDistDisplay, h, binLabels, histCount_bin1, histCount_bin2,
    histCount_bin3, histCount_bin4]

/-- Witness for the amended C1 at the concrete reviews table. -/
theorem claim_C1_witness :
    playtimeDistDisplay (some reviewsEx) =
      some [("0-10h",
              (reviewsEx.numCol "playtime_hours").countP (fun v => decide (0 < v ∧ v ≤ 10))),
            ("10-50h",
              (reviewsEx.numCol "playtime_hours").countP (fun v => decide (10 < v ∧ v ≤ 50))),
            ("50-100h",
              (reviewsEx.numCol "playtime_hours").countP (fun v => decide (50 < v ∧ v ≤ 100))),
            ("100h+",
              (reviewsEx.numCol "playtime_hours").countP (fun v => decide (100 < v)))] :=
  (claim_C1_amended reviewsEx).1 (by decide)

/-- Witness for C7 at the concrete logs table with ids `[1, 1, 2, 3]`. -/
theorem claim_C7_witness :
    activePlayersDisplay (some logsEx) =
      fmtComma ((logsEx.getCol "player_id").filter
        (fun v => v != Value.nan)).toFinset.card :=
  (claim_C7 logsEx).1 (by decide)

/-- Counterexample to claim C4 as stated: when the games table is absent
(the outcome of any load failure), the count metrics are not rendered at
all — nothing displays `0`; the error branch runs instead. -/
theorem claim_C4_counterexample :
    overviewCounts none none none = none ∧
    overviewCounts none none none ≠ some (fmtComma 0, fmtComma 0, fmtComma 0) := by
  exact ⟨rfl, by simp [overviewCounts]⟩

/-- Claim C4 (amended): when the games table is present, the total-games,
total-reviews and log-entries metrics display the row counts of their
tables, with `0` for an absent reviews or logs table; when the games table
is absent (as after any load failure) no count metrics are rendered and
the error message is displayed instead. -/
theorem claim_C4_amended (g r l : Option Table) :
    (∀ gt, g = some gt →
        overviewCounts g r l =
          some (fmtComma gt.nRows, fmtComma (r.elim 0 Table.nRows),
            fmtComma (l.elim 0 Table.nRows))) ∧
    (g = none → overviewCounts g r l = none) := by
  constructor
  · rintro gt rfl
    cases r <;> cases l <;> rfl
  · rintro rfl
    rfl

/-- Witness for the amended C4: games present with 3 rows, reviews present
with 4 rows, logs absent. -/
theorem claim_C4_witness :
    overviewCounts (some gamesEx) (some reviewsEx) none =
      some (fmtComma gamesEx.nRows,
        fmtComma ((some reviewsEx).elim 0 Table.nRows),
        fmtComma ((none : Option Table).elim 0 Table.nRows)) :=
  (claim_C4_amended (some gamesEx) (some reviewsEx) none).1 gamesEx rfl

/-- `df[c] = vs` leaves the row count unchanged. -/
lemma nRows_setCol (t : Table) (c : String) (vs : List Value) :
    (t.setCol c vs).nRows = t.nRows := by
  unfold Table.setCol
  split <;> rfl

/-- Key membership in the mapped column list of `setCol` is unchanged for
other column names. -/
lemma any_key_map_set (l : List (String × List Value)) (c c' : String)
    (vs : List Value) :
    (l.map (fun p => if p.1 == c then (c, vs) else p)).any (fun p => p.1 == c') =
      l.any (fun p => p.1 == c') := by
  induction l with
  | nil => rfl
  | cons a as ih =>
    simp only [List.map_cons, List.any_cons]
    have hhead : ((if a.1 == c then (c, vs) else a) : String × List Value).1 = a.1 := by
      by_cases ha : a.1 = c
      · simp [ha]
      · simp [ha]
    rw [hhead, ih]

/-- Lookup in the mapped column list of `setCol` is unchanged for other
column names. -/
lemma find_key_map_set (l : List (String × List Value)) (c c' : String)
    (vs : List Value) (h : c' ≠ c) :
    (l.map (fun p => if p.1 == c then (c, vs) else p)).find? (fun p => p.1 == c') =
      l.find? (fun p => p.1 == c') := by
  induction l with
  | nil => rfl
  | cons a as ih =>
    by_cases ha : a.1 = c
    · have hm : ((if a.1 == c then (c, vs) else a) : String × List Value) = (c, vs) := by
        simp [ha]
      rw [List.map_cons, hm, List.find?_cons_of_neg _ (by simp [Ne.symm h]),
        List.find?_cons_of_neg _ (by simp [ha, Ne.symm h])]
      exact ih
    · have hm : ((if a.1 == c then (c, vs) else a) : String × List Value) = a := by
        simp [ha]
      rw [List.map_cons, hm]
      by_cases hx : a.1 = c'
      · rw [List.find?_cons_of_pos _ (by simp [hx]), List.find?_cons_of_pos _ (by simp [hx])]
      · rw [List.find?_cons_of_neg _ (by simp [hx]), List.find?_cons_of_neg _ (by simp [hx])]
        exact ih

/-- `setCol` does not change whether another column exists. -/
lemma hasCol_setCol_ne (t : Table) (c c' : String) (vs : List Value) (h : c' ≠ c) :
    (t.setCol c vs).hasCol c' = t.hasCol c' := by
  unfold Table.setCol
  split
  · unfold Table.hasCol
    exact any_key_map_set t.cols c c' vs
  · unfold Table.hasCol
    simp only [List.any_append, List.any_cons, List.any_nil]
    simp [Ne.symm h]

/-- `setCol` does not change the contents of another column. -/
lemma getCol_setCol_ne (t : Table) (c c' : String) (vs : List Value) (h : c' ≠ c) :
    (t.setCol c vs).getCol c' = t.getCol c' := by
  unfold Table.setCol
  split
  · unfold Table.getCol
    rw [find_key_map_set t.cols c c' vs h]
  · unfold Table.getCol
    rw [List.find?_append]
    have : List.find? (fun p => p.1 == c') [(c, vs)] = none := by
      simp [Ne.symm h]
    rw [this]
    cases t.cols.find? (fun p => p.1 == c') <;> rfl

/-- Claim C9: a render pass leaves the games and logs tables unchanged and
changes at most the `playtime_bin` column of the reviews table; every other
column of the reviews table (contents and presence) and its row count are
untouched, and no table appears or disappears. -/
theorem claim_C9 (g r l : Option Table) :
    (renderTables g r l).1 = g ∧ (renderTables g r l).2.2 = l ∧
    (∀ c, c ≠ "playtime_bin" → colView (renderTables g r l).2.1 c = colView r c) ∧
    ((renderTables g r l).2.1).isSome = r.isSome ∧
    Option.map Table.nRows ((renderTables g r l).2.1) = Option.map Table.nRows r := by
  cases g with
  | none => exact ⟨rfl, rfl, fun c _ => rfl, rfl, rfl⟩
  | some gt =>
    cases r with
    | none => exact ⟨rfl, rfl, fun c _ => rfl, rfl, rfl⟩
    | some rt =>
      by_cases hp : rt.hasCol "playtime_hours"
      · have hr : (renderTables (some gt) (some rt) l).2.1 =
            some (rt.setCol "playtime_bin"
              ((rt.numCol "playtime_hours").map (fun x => binValue (cutBin x)))) := by
          simp [renderTables, hp]
        refine ⟨rfl, rfl, fun c hc => ?_, ?_, ?_⟩
        · rw [hr]
          simp only [colView]
          rw [hasCol_setCol_ne rt "playtime_bin" c _ hc,
            getCol_setCol_ne rt "playtime_bin" c _ hc]
        · rw [hr]
          rfl
        · rw [hr]
          simp [nRows_setCol]
      · have hr : (renderTables (some gt) (some rt) l).2.1 = some rt := by
          simp [renderTables, hp]
        refine ⟨rfl, rfl, fun c hc => ?_, ?_, ?_⟩ <;> rw [hr]

/-- Witness for C9 at concrete tables: the playtime column of the reviews
table is unchanged by the render pass. -/
theorem claim_C9_witness :
    colView (renderTables (some gamesEx) (some reviewsEx) (some logsEx)).2.1
        "playtime_hours" = colView (some reviewsEx) "playtime_hours" :=
  (claim_C9 (some gamesEx) (some reviewsEx) (some logsEx)).2.2.1
    "playtime_hours" (by simp)

end Dashboard
